import Mathlib

/-!
Verification development for the down-to-earth HTTP client library.

The definitions below are a shallow embedding of the Python source:

* `down2earth/core/mechanisms/fetch.py` — the cyclic fetch mechanism
  (`GentleMechanism.on_cycle_state`, `GentleMechanism.fetch`,
  `ExponentialTimeRetry.get_sleep_time`);
* `down2earth/core/constants.py` — the default retry/stop rule sets;
* `down2earth/utils/async_utils.py` — the token-bucket rate limiter
  (`TokenBucketRateLimiter.__init__`, `_consume_tokens`,
  `_get_tokens_amount_to_consume`);
* `down2earth/core/client.py` — `IRestClient._rest_call`;
* `down2earth/core/models/request.py` — `drop_nan_values`,
  `convert_values_to_str`, `RestRequest.__init__`.

CPython evaluation details that matter are modelled explicitly: an
`AttributeError` raised by evaluating `response.status` when `response`
is `None`, and the `RuntimeError` raised when a dictionary changes size
during iteration.
-/

namespace D2E

/-- Exception classes that can reach the mechanism, identified by their
exact runtime type (Python membership tests like
`type(exception) in self._stop_exceptions` compare exact types).
`other n` stands for any further exception class. -/
inductive ExcType where
  | serverTimeoutError
  | clientOSError
  | clientSSLError
  | clientHttpProxyError
  | clientConnectorCertificateError
  | clientProxyConnectionError
  | contentTypeError
  | tooManyRedirects
  | other (n : Nat)
  deriving DecidableEq, Repr

/-- An HTTP response as the mechanism sees it: only the status code is
inspected by the classification logic. -/
structure Response where
  status : Nat
  deriving DecidableEq, Repr

/-- Python exceptions that escape the embedded functions. -/
inductive PyError where
  | fetchMechanismFailed (message : String) (statusCode : Option Nat) (exc : Option ExcType)
  | attributeError
  | runtimeError
  deriving DecidableEq, Repr

/-- The set `DEFAULT_RETRY_STATUS_CODES` from `core/constants.py`. -/
def DEFAULT_RETRY_STATUS_CODES : List Nat := [500, 502, 503, 504]

/-- The set `DEFAULT_STOP_STATUS_CODES` from `core/constants.py`. -/
def DEFAULT_STOP_STATUS_CODES : List Nat :=
  [400, 401, 402, 403, 404, 405, 406, 407, 412, 413, 411, 410, 409, 415,
   501, 505, 507, 508, 510, 511]

/-- The set `DEFAULT_RETRY_EXCEPTIONS` from `core/constants.py`. -/
def DEFAULT_RETRY_EXCEPTIONS : List ExcType := [.serverTimeoutError]

/-- The set `DEFAULT_STOP_EXCEPTIONS` from `core/constants.py`. -/
def DEFAULT_STOP_EXCEPTIONS : List ExcType :=
  [.clientOSError, .clientSSLError, .clientHttpProxyError,
   .clientConnectorCertificateError, .clientProxyConnectionError,
   .contentTypeError, .tooManyRedirects]

/-- Configuration of `GentleMechanism` (`fetch.py`, constructor lines
120-141): backoff parameters inherited from `ExponentialTimeRetry` plus
`max_attempts` and the four rule sets. -/
structure GentleConfig where
  firstSleep : ℚ
  exponent : ℚ
  maxAttempts : Nat
  retryStatusCodes : List Nat := DEFAULT_RETRY_STATUS_CODES
  stopStatusCodes : List Nat := DEFAULT_STOP_STATUS_CODES
  retryExceptions : List ExcType := DEFAULT_RETRY_EXCEPTIONS
  stopExceptions : List ExcType := DEFAULT_STOP_EXCEPTIONS

/-- The final `if request.attempt > self._max_attempts` block of
`GentleMechanism.on_cycle_state` (fetch.py lines 165-166).  The source
evaluates `response.status` unconditionally there; when `response` is
`None` that expression raises `AttributeError`. -/
def checkAttempt (cfg : GentleConfig) (attempt : Nat)
    (response : Option Response) (exception : Option ExcType) : Except PyError Unit :=
  if attempt > cfg.maxAttempts then
    match response with
    | some r => .error (.fetchMechanismFailed "Maximum attempts reached" (some r.status) exception)
    | none => .error .attributeError
  else .ok ()

/-- The `if exception is not None` block of
`GentleMechanism.on_cycle_state` (fetch.py lines 158-163), followed by
the attempt check. -/
def checkException (cfg : GentleConfig) (attempt : Nat)
    (response : Option Response) (exception : Option ExcType) : Except PyError Unit :=
  match exception with
  | some e =>
    if e ∈ cfg.stopExceptions then
      .error (.fetchMechanismFailed "Stop exceptions are hit" none (some e))
    else if e ∉ cfg.retryExceptions then
      .error (.fetchMechanismFailed "Exception type not in retry exceptions" none (some e))
    else checkAttempt cfg attempt response exception
  | none => checkAttempt cfg attempt response exception

/-- Embedding of `GentleMechanism.on_cycle_state` (fetch.py lines 143-166).
`attempt` is the value of `request.attempt` at call time.  A `.ok ()`
result is the source returning normally (the `Retry`/`Success` cases);
a `.error` result is the exception the source raises. -/
def on_cycle_state (cfg : GentleConfig) (attempt : Nat)
    (response : Option Response) (exception : Option ExcType) : Except PyError Unit :=
  match response with
  | some r =>
    if 200 ≤ r.status ∧ r.status < 300 then .ok ()
    else if r.status ∈ cfg.stopStatusCodes then
      .error (.fetchMechanismFailed "Stop status codes are hit" (some r.status) exception)
    else if r.status ∉ cfg.retryStatusCodes then
      .error (.fetchMechanismFailed "Status code not in retry status codes" (some r.status) exception)
    else checkException cfg attempt response exception
  | none => checkException cfg attempt response exception

/-- Embedding of `ExponentialTimeRetry.get_sleep_time` (fetch.py lines 102-110):
`first_sleep * exponent ** request.attempt` exactly when the exception's
runtime type is `ServerTimeoutError`, else `first_sleep`.  The
`response` argument is accepted and ignored, as in the source. -/
def get_sleep_time (firstSleep exponent : ℚ) (attempt : Nat)
    (response : Option Response) (exception : Option ExcType) : ℚ :=
  if exception = some .serverTimeoutError then firstSleep * exponent ^ attempt
  else firstSleep

/-- Outcome of one physical send by the underlying fetcher: either a
response or a raised transport exception. -/
inductive Outcome where
  | resp (r : Response)
  | exc (e : ExcType)
  deriving DecidableEq, Repr

/-- Per-request mutable state tracked through `fetch`: the request's
`_attempt` counter (request.py) and, as a ghost counter, the number of
physical sends (`self._fetcher.fetch`) performed so far. -/
structure FetchState where
  attempt : Nat
  sends : Nat
  deriving DecidableEq, Repr

/-- What `GentleMechanism.fetch` does for the caller: return a response
(`returned`), let a Python exception propagate (`raised`), or fall off
the end of the `for` loop and return Python `None` (`returnedNone`). -/
inductive FetchResult where
  | returned (r : Response)
  | raised (e : PyError)
  | returnedNone
  deriving DecidableEq, Repr

/-- The body of the `for attempt in range(...)` loop of
`GentleMechanism.fetch` (fetch.py lines 168-179), with `fuel` the
number of remaining loop iterations.  `transport n` is the outcome of
the `(n+1)`-st physical send.  Each send first increments the request's
attempt counter (`RestRequest.fetch` calls `self.next_attempt()` before
awaiting the response, request.py line 149).  On a response,
`on_cycle_state` is consulted: returning normally makes `fetch` return
the response; a raised error propagates (re-raised by the
`except FetchMechanismFailed` arm).  On a transport exception,
`on_cycle_state` is consulted with the exception: returning normally
continues the loop, a raised error propagates. -/
def fetchLoop (cfg : GentleConfig) (transport : Nat → Outcome) :
    Nat → FetchState → FetchResult × FetchState
  | 0, st => (.returnedNone, st)
  | fuel + 1, st =>
    let st1 : FetchState := ⟨st.attempt + 1, st.sends + 1⟩
    match transport st.sends with
    | .resp r =>
      match on_cycle_state cfg st1.attempt (some r) none with
      | .ok () => (.returned r, st1)
      | .error e => (.raised e, st1)
    | .exc ex =>
      match on_cycle_state cfg st1.attempt none (some ex) with
      | .ok () => fetchLoop cfg transport fuel st1
      | .error e => (.raised e, st1)

/-- Embedding of `GentleMechanism.fetch` (fetch.py lines 168-179) for a request whose
attempt counter is `initAttempt`.  The `range(request.attempt,
self._max_attempts + 1)` bound is computed once on entry, giving
`maxAttempts + 1 - initAttempt` iterations. -/
def fetch (cfg : GentleConfig) (transport : Nat → Outcome)
    (initAttempt : Nat) : FetchResult × FetchState :=
  fetchLoop cfg transport (cfg.maxAttempts + 1 - initAttempt) ⟨initAttempt, 0⟩

/-- Embedding of the `TokenBucketRateLimiter.__init__` validation (async_utils.py lines
23-31): `if not rate_limit or rate_limit < 1: raise ValueError(...)`,
then the same for `concurrency_limit`.  For a Python `int`,
`not rate_limit` is `rate_limit == 0`.  On success the limiter keeps the
two limits. -/
def tokenBucketInit (rate_limit concurrency_limit : ℤ) : Except String (ℤ × ℤ) :=
  if rate_limit = 0 ∨ rate_limit < 1 then
    .error "rate limit must be non zero positive number"
  else if concurrency_limit = 0 ∨ concurrency_limit < 1 then
    .error "concurrent limit must be non zero positive number"
  else .ok (rate_limit, concurrency_limit)

/-- Embedding of `TokenBucketRateLimiter._get_tokens_amount_to_consume`
(async_utils.py lines 86-93):
`min(total_tokens, math.floor((now - last) / consumption_rate))`. -/
def get_tokens_amount_to_consume (consumption_rate current_consumption_time
    last_consumption_time : ℚ) (total_tokens : ℕ) : ℤ :=
  let time_from_last_consumption := current_consumption_time - last_consumption_time
  let calculated_tokens_to_consume := ⌊time_from_last_consumption / consumption_rate⌋
  min (total_tokens : ℤ) calculated_tokens_to_consume

/-- State of the background eviction loop of `_consume_tokens`
(async_utils.py lines 57-76): the token queue (front of the Python
`asyncio.Queue` is the head of the list) and `last_consumption_time`. -/
structure LimiterState where
  queue : List Unit
  last : ℚ
  deriving DecidableEq

/-- One wake of the `while True` body of
`TokenBucketRateLimiter._consume_tokens` (async_utils.py lines 61-76) at
monotonic time `now`.  An empty queue re-sleeps without touching
`last_consumption_time`; otherwise `tokens_to_consume` tokens are taken
from the front of the queue (`get_nowait` in a `for _ in range(n)` loop,
so a non-positive `n` takes none) and `last_consumption_time` is
refreshed. -/
def consumeTokensStep (rate_limit : ℕ) (now : ℚ) (st : LimiterState) : LimiterState :=
  if st.queue.isEmpty then st
  else
    let consumption_rate : ℚ := 1 / rate_limit
    let tokens_to_consume :=
      get_tokens_amount_to_consume consumption_rate now st.last st.queue.length
    { queue := st.queue.drop tokens_to_consume.toNat, last := now }

/-- What `IRestClient._rest_call` (client.py lines 54-63) produces for
its caller. -/
inductive RestCallOutcome where
  | returned (r : Option Response)
  | raised (e : PyError)
  deriving DecidableEq, Repr

/-- Embedding of `IRestClient._rest_call` (client.py lines 54-63) as a function of
what `mechanism.fetch(request)` did.  A returned response is returned;
a `FetchMechanismFailed` exception is caught, `_on_mechanism_failure`
runs, and the method falls through returning Python `None`; any other
exception propagates.  If `fetch` returned `None` (its loop fell
through), that `None` is returned as the response. -/
def rest_call (fetchResult : FetchResult) : RestCallOutcome :=
  match fetchResult with
  | .returned r => .returned (some r)
  | .returnedNone => .returned none
  | .raised (.fetchMechanismFailed _ _ _) => .returned none
  | .raised e => .raised e

/-- Values a request dictionary can hold; Python `None` is represented
by `Option.none` around this type. -/
inductive PyVal where
  | pyStr (s : String)
  | pyInt (n : ℤ)
  deriving DecidableEq, Repr

/-- Python `str(value)` on a dictionary value. -/
def pyvalStr : PyVal → PyVal
  | .pyStr s => .pyStr s
  | .pyInt n => .pyStr (toString n)

/-- A Python `dict` as an insertion-ordered association list; `none`
values are entries whose value is `None`. -/
abbrev PyDict := List (String × Option PyVal)

/-- The iteration of `drop_nan_values` (request.py lines 14-17) over a
dict, CPython-faithfully: `initSize` is the dict's size when the
iterator was created; each call to the iterator's
`__next__` — including the final one that would raise
`StopIteration` — first compares the current size against `initSize` and
raises `RuntimeError('dictionary changed size during iteration')` on a
mismatch.  The loop body deletes the current key when its value is
`None`. -/
def dropNanGo (initSize : Nat) : PyDict → PyDict → Except PyError PyDict
  | dict, [] =>
    if dict.length = initSize then .ok dict else .error .runtimeError
  | dict, (k, v) :: rest =>
    if dict.length = initSize then
      match v with
      | none => dropNanGo initSize (dict.filter fun p => p.1 ≠ k) rest
      | some _ => dropNanGo initSize dict rest
    else .error .runtimeError

/-- Embedding of `drop_nan_values` (request.py lines 14-17): iterate over
`params.items()`, deleting every key whose value is `None` from the dict
being iterated. -/
def drop_nan_values (params : PyDict) : Except PyError PyDict :=
  dropNanGo params.length params params

/-- Embedding of `convert_values_to_str` (request.py lines 20-23): replace every
non-`None` value by `str(value)`.  No size change, so no iteration
error. -/
def convert_values_to_str (params : PyDict) : PyDict :=
  params.map fun p => (p.1, p.2.map pyvalStr)

/-- The fields of `RestRequest` that its constructor's dictionary
processing produces (request.py lines 95-124), plus the initial attempt
counter. -/
structure RestRequestModel where
  attempt : Nat
  data : Option PyDict
  headers : Option PyDict
  params : Option PyDict
  deriving DecidableEq, Repr

/-- Applies a fallible dict transformation to an optional dict, as the
`if data is not None:` guards in `RestRequest.__init__` do. -/
def processOpt (f : PyDict → Except PyError PyDict) :
    Option PyDict → Except PyError (Option PyDict)
  | none => .ok none
  | some d => (f d).map some

/-- Embedding of `RestRequest.__init__` (request.py lines 95-124), restricted to the
state the claims are about: `_attempt = 1`, `drop_nan_values` on `data`,
and `drop_nan_values` followed by `convert_values_to_str` on `headers`
and `params`, each applied only when the argument is not `None`.  A
`RuntimeError` from any `drop_nan_values` call propagates out of the
constructor. -/
def mkRestRequest (data headers params : Option PyDict) :
    Except PyError RestRequestModel :=
  match processOpt drop_nan_values data with
  | .error e => .error e
  | .ok data' =>
    match processOpt (fun d => (drop_nan_values d).map convert_values_to_str) headers with
    | .error e => .error e
    | .ok headers' =>
      match processOpt (fun d => (drop_nan_values d).map convert_values_to_str) params with
      | .error e => .error e
      | .ok params' => .ok ⟨1, data', headers', params'⟩

/-- A `GentleMechanism` configured with the default rule sets,
`max_attempts = 3`, `first_sleep = 1` and `exponent = 2`, as in the
spec's three-attempt scenario. -/
def scenarioConfig : GentleConfig :=
  { firstSleep := 1, exponent := 2, maxAttempts := 3 }

lemma fetchLoop_counters (cfg : GentleConfig) (transport : Nat → Outcome) :
    ∀ (fuel : Nat) (st : FetchState),
      (fetchLoop cfg transport fuel st).2.sends ≤ st.sends + fuel ∧
      (fetchLoop cfg transport fuel st).2.attempt + st.sends
        = st.attempt + (fetchLoop cfg transport fuel st).2.sends ∧
      st.attempt ≤ (fetchLoop cfg transport fuel st).2.attempt := by
  intro fuel
  induction fuel with
  | zero =>
    intro st
    simp [fetchLoop]
  | succ n ih =>
    intro st
    simp only [fetchLoop]
    cases htr : transport st.sends with
    | resp r =>
      cases hoc : on_cycle_state cfg (st.attempt + 1) (some r) none with
      | ok u =>
        simp only [hoc]
        omega
      | error e =>
        simp only [hoc]
        omega
    | exc ex =>
      cases hoc : on_cycle_state cfg (st.attempt + 1) none (some ex) with
      | ok u =>
        simp only [hoc]
        have h3 := ih ⟨st.attempt + 1, st.sends + 1⟩
        have hA : (⟨st.attempt + 1, st.sends + 1⟩ : FetchState).attempt = st.attempt + 1 := rfl
        have hS : (⟨st.attempt + 1, st.sends + 1⟩ : FetchState).sends = st.sends + 1 := rfl
        rw [hA, hS] at h3
        omega
      | error e =>
        simp only [hoc]
        omega

/-- C1 failing-input evaluation: with `max_attempts = 3` and the
transport answering status 503 (a default retryable status) on every
send, `GentleMechanism.fetch` performs exactly one physical send,
never sleeps, and returns the 503 response (the attempt counter ends
at 2).  The source contains no sleep at all: `get_sleep_time` is never
called from `fetch`, and a retryable status makes `on_cycle_state`
return normally, upon which `fetch` immediately returns the
response — it does not retry, sleep, or raise
`FetchMechanismFailed("maximum attempts reached", 503)`. -/
theorem claim1_retryable_status_returned_after_one_send :
    fetch scenarioConfig (fun _ => .resp ⟨503⟩) 1
      = (.returned ⟨503⟩, ⟨2, 1⟩) := by decide

/-- C2 failing-input evaluation: with `max_attempts = 3` and every
send raising `ServerTimeoutError` (the default retryable exception),
`fetch` performs three sends and then the attempt-budget branch of
`on_cycle_state` evaluates `response.status` with `response = None`,
so the failure that escapes `fetch` is an `AttributeError`, not
`FetchMechanismFailed("Maximum attempts reached")`. -/
theorem claim2_timeout_exhaustion_raises_attribute_error :
    fetch scenarioConfig (fun _ => .exc .serverTimeoutError) 1
      = (.raised .attributeError, ⟨4, 3⟩) := by decide

/-- C3: for every configuration with `maxAttempts ≥ 1`, every
transport behaviour, and a request whose attempt counter starts at 1,
one call to `fetch` invokes the underlying fetcher at most
`maxAttempts` times, and the final attempt counter equals
`1 + (number of physical sends)` — the counter is incremented exactly
once per physical send and never resets (it is monotone from any
intermediate loop state). -/
theorem claim3_at_most_max_attempts_sends (cfg : GentleConfig)
    (transport : Nat → Outcome) (h : 1 ≤ cfg.maxAttempts) :
    (fetch cfg transport 1).2.sends ≤ cfg.maxAttempts ∧
    (fetch cfg transport 1).2.attempt = 1 + (fetch cfg transport 1).2.sends ∧
    ∀ (fuel : Nat) (st : FetchState),
      st.attempt ≤ (fetchLoop cfg transport fuel st).2.attempt := by
  have hmain := fetchLoop_counters cfg transport (cfg.maxAttempts + 1 - 1) ⟨1, 0⟩
  have hA : (⟨1, 0⟩ : FetchState).attempt = 1 := rfl
  have hS : (⟨1, 0⟩ : FetchState).sends = 0 := rfl
  rw [hA, hS] at hmain
  have hfuel : cfg.maxAttempts + 1 - 1 = cfg.maxAttempts := by omega
  rw [hfuel] at hmain
  refine ⟨?_, ?_, fun fuel st => (fetchLoop_counters cfg transport fuel st).2.2⟩
  · simp only [fetch, hfuel]
    omega
  · simp only [fetch, hfuel]
    omega

/-- Witness for C3 at the concrete scenario configuration and an
all-503 transport. -/
theorem claim3_witness :
    (fetch scenarioConfig (fun _ => .resp ⟨503⟩) 1).2.sends ≤ scenarioConfig.maxAttempts ∧
    (fetch scenarioConfig (fun _ => .resp ⟨503⟩) 1).2.attempt
      = 1 + (fetch scenarioConfig (fun _ => .resp ⟨503⟩) 1).2.sends ∧
    ∀ (fuel : Nat) (st : FetchState),
      st.attempt ≤ (fetchLoop scenarioConfig (fun _ => .resp ⟨503⟩) fuel st).2.attempt :=
  claim3_at_most_max_attempts_sends scenarioConfig (fun _ => .resp ⟨503⟩) (by decide)

/-- C4: the function `get_sleep_time` returns `firstSleep * exponent ^ attempt`
exactly when the exception is a `ServerTimeoutError`, and plain
`firstSleep` for every other input (any other exception class, or no
exception at all, whatever the response), independent of the attempt
number. -/
theorem claim4_backoff_exponential_only_for_timeout
    (firstSleep exponent : ℚ) (attempt : Nat) (response : Option Response) :
    get_sleep_time firstSleep exponent attempt response (some .serverTimeoutError)
      = firstSleep * exponent ^ attempt ∧
    ∀ exception : Option ExcType, exception ≠ some .serverTimeoutError →
      get_sleep_time firstSleep exponent attempt response exception = firstSleep := by
  constructor
  · simp [get_sleep_time]
  · intro exception hne
    simp [get_sleep_time, hne]

/-- Witness for C4 at `firstSleep = 2`, `exponent = 3`, `attempt = 4`. -/
theorem claim4_witness :
    get_sleep_time 2 3 4 none (some .serverTimeoutError) = 2 * 3 ^ 4 ∧
    get_sleep_time 2 3 4 (some ⟨503⟩) none = 2 :=
  ⟨(claim4_backoff_exponential_only_for_timeout 2 3 4 none).1,
   (claim4_backoff_exponential_only_for_timeout 2 3 4 (some ⟨503⟩)).2 none (by decide)⟩

/-- A configuration whose stop and retry status code sets both contain
204, a code inside `[200, 300)`. -/
def stop2xxConfig : GentleConfig :=
  { firstSleep := 1, exponent := 2, maxAttempts := 3,
    retryStatusCodes := [204], stopStatusCodes := [204] }

/-- C5 counterexample: with `stopStatusCodes = retryStatusCodes =
{204}`, a 204 response at attempt 1 is classified as Success
(`on_cycle_state` returns normally) even though its status code is in
`stopStatusCodes`: the `200 <= status < 300` check precedes the stop
check, so the claim "status in stopStatusCodes always yields Fatal" is
false as stated. -/
theorem claim5_counterexample :
    204 ∈ stop2xxConfig.stopStatusCodes ∧
    on_cycle_state stop2xxConfig 1 (some ⟨204⟩) none = .ok () :=
  ⟨by decide, rfl⟩

/-- C5 amended: for every configuration, attempt number and
exception value, a response whose status code is in `stopStatusCodes`
and outside `[200, 300)` is classified as Fatal via the stop-status
branch, even if the same code is also in `retryStatusCodes`: the stop
check is evaluated before the retry check. -/
theorem claim5_stop_precedes_retry (cfg : GentleConfig) (attempt s : Nat)
    (exception : Option ExcType) (hstop : s ∈ cfg.stopStatusCodes)
    (h2xx : ¬(200 ≤ s ∧ s < 300)) :
    on_cycle_state cfg attempt (some ⟨s⟩) exception
      = .error (.fetchMechanismFailed "Stop status codes are hit" (some s) exception) := by
  simp only [on_cycle_state]
  rw [if_neg h2xx, if_pos hstop]

/-- Witness for C5 (amended): status 404, a default stop status code,
at attempt 1 under the scenario configuration. -/
theorem claim5_witness :
    on_cycle_state scenarioConfig 1 (some ⟨404⟩) none
      = .error (.fetchMechanismFailed "Stop status codes are hit" (some 404) none) :=
  claim5_stop_precedes_retry scenarioConfig 1 404 none (by decide) (by decide)

/-- C6: a response with status in `[200, 300)` is always classified
as Success: for every configuration (whatever the rule sets contain),
attempt number and exception value, `on_cycle_state` returns without
raising; and whenever a physical send inside `fetch` yields such a
response, the loop returns exactly that response; in particular `fetch`
started on a fresh request returns it after one send whenever at least
one attempt is allowed. -/
theorem claim6_2xx_always_success (cfg : GentleConfig) (attempt s : Nat)
    (exception : Option ExcType) (h1 : 200 ≤ s) (h2 : s < 300) :
    on_cycle_state cfg attempt (some ⟨s⟩) exception = .ok () ∧
    (∀ (transport : Nat → Outcome) (fuel : Nat) (st : FetchState),
      transport st.sends = .resp ⟨s⟩ →
      fetchLoop cfg transport (fuel + 1) st
        = (.returned ⟨s⟩, ⟨st.attempt + 1, st.sends + 1⟩)) ∧
    ∀ (transport : Nat → Outcome), transport 0 = .resp ⟨s⟩ →
      1 ≤ cfg.maxAttempts →
      fetch cfg transport 1 = (.returned ⟨s⟩, ⟨2, 1⟩) := by
  have hok : ∀ (a : Nat) (e : Option ExcType),
      on_cycle_state cfg a (some ⟨s⟩) e = .ok () := by
    intro a e
    simp only [on_cycle_state]
    rw [if_pos ⟨h1, h2⟩]
  have hloop : ∀ (transport : Nat → Outcome) (fuel : Nat) (st : FetchState),
      transport st.sends = .resp ⟨s⟩ →
      fetchLoop cfg transport (fuel + 1) st
        = (.returned ⟨s⟩, ⟨st.attempt + 1, st.sends + 1⟩) := by
    intro transport fuel st htr
    simp only [fetchLoop, htr, hok]
  refine ⟨hok attempt exception, hloop, ?_⟩
  intro transport htr hmax
  have hfuel : cfg.maxAttempts + 1 - 1 = (cfg.maxAttempts - 1) + 1 := by omega
  have := hloop transport (cfg.maxAttempts - 1) ⟨1, 0⟩ htr
  simpa [fetch, hfuel] using this

/-- Witness for C6 at status 204 under the scenario configuration,
whose stop list does not contain 204, and a transport that always
answers 204. -/
theorem claim6_witness :
    on_cycle_state scenarioConfig 7 (some ⟨204⟩) none = .ok () ∧
    fetch scenarioConfig (fun _ => .resp ⟨204⟩) 1 = (.returned ⟨204⟩, ⟨2, 1⟩) := by
  have h := claim6_2xx_always_success scenarioConfig 7 204 none (by norm_num) (by norm_num)
  exact ⟨h.1, h.2.2 (fun _ => .resp ⟨204⟩) rfl (by decide)⟩

/-- C7: on a wake of the background eviction loop with a non-empty
token queue, the number of tokens evicted from the front of the queue
equals `min(queueSize, floor(elapsed / (1/rateLimit)))`, where
`elapsed = now - lastConsumptionTime`; and the pure helper
`_get_tokens_amount_to_consume(rate, now, last, total)` returns
`min(total, floor((now - last) / rate))` for all arguments. -/
theorem claim7_eviction_count (rate_limit : ℕ) (now : ℚ) (st : LimiterState)
    (hr : 1 ≤ rate_limit) (hle : st.last ≤ now) (hne : st.queue ≠ []) :
    ((st.queue.length : ℤ) - ((consumeTokensStep rate_limit now st).queue.length : ℤ)
        = min (st.queue.length : ℤ) ⌊(now - st.last) / (1 / (rate_limit : ℚ))⌋) ∧
    (consumeTokensStep rate_limit now st).last = now ∧
    ∀ (rate now2 last2 : ℚ) (total : ℕ),
      get_tokens_amount_to_consume rate now2 last2 total
        = min (total : ℤ) ⌊(now2 - last2) / rate⌋ := by
  have hq : st.queue.isEmpty = false := by
    cases h : st.queue with
    | nil => exact absurd h hne
    | cons a t => rfl
  have hrq : (0 : ℚ) < (rate_limit : ℚ) := by
    have : (1 : ℚ) ≤ (rate_limit : ℚ) := by exact_mod_cast hr
    linarith
  have hdivpos : (0 : ℚ) < 1 / (rate_limit : ℚ) := by positivity
  have hfl : 0 ≤ ⌊(now - st.last) / (1 / (rate_limit : ℚ))⌋ := by
    apply Int.floor_nonneg.mpr
    apply div_nonneg (by linarith) (le_of_lt hdivpos)
  have hn : get_tokens_amount_to_consume (1 / (rate_limit : ℚ)) now st.last st.queue.length
      = min (st.queue.length : ℤ) ⌊(now - st.last) / (1 / (rate_limit : ℚ))⌋ := rfl
  have hstep : consumeTokensStep rate_limit now st =
      { queue := st.queue.drop (min (st.queue.length : ℤ)
          ⌊(now - st.last) / (1 / (rate_limit : ℚ))⌋).toNat, last := now } := by
    simp only [consumeTokensStep, hq, Bool.false_eq_true, if_false, hn]
  rw [hstep]
  refine ⟨?_, rfl, fun rate now2 last2 total => rfl⟩
  simp only [List.length_drop]
  have hnn : 0 ≤ min (st.queue.length : ℤ) ⌊(now - st.last) / (1 / (rate_limit : ℚ))⌋ :=
    le_min (Int.ofNat_nonneg _) hfl
  have hub : min (st.queue.length : ℤ) ⌊(now - st.last) / (1 / (rate_limit : ℚ))⌋
      ≤ (st.queue.length : ℤ) := min_le_left _ _
  omega

/-- Witness for C7: rate limit 2 (so `1/rateLimit = 1/2` seconds), a
four-token queue, 2 seconds elapsed: all four tokens are evicted and
`lastConsumptionTime` advances. -/
theorem claim7_witness :
    (((([(), (), (), ()] : List Unit).length : ℤ)
        - ((consumeTokensStep 2 3 ⟨[(), (), (), ()], 1⟩).queue.length : ℤ)
      = min (4 : ℤ) ⌊((3 : ℚ) - 1) / (1 / (2 : ℚ))⌋) ∧
    (consumeTokensStep 2 3 ⟨[(), (), (), ()], 1⟩).last = 3 ∧
    ∀ (rate now2 last2 : ℚ) (total : ℕ),
      get_tokens_amount_to_consume rate now2 last2 total
        = min (total : ℤ) ⌊(now2 - last2) / rate⌋) :=
  claim7_eviction_count 2 3 ⟨[(), (), (), ()], 1⟩ (by norm_num)
    (by norm_num) (by simp)

/-- C8: rate-limiter construction fails with a
`ValueError` if and only if the rate limit is below 1 or the
concurrency limit is below 1; with both limits at least 1 it succeeds
and stores them. -/
theorem claim8_limiter_validation (rate_limit concurrency_limit : ℤ) :
    ((∃ msg, tokenBucketInit rate_limit concurrency_limit = .error msg)
        ↔ (rate_limit < 1 ∨ concurrency_limit < 1)) ∧
    (1 ≤ rate_limit → 1 ≤ concurrency_limit →
      tokenBucketInit rate_limit concurrency_limit = .ok (rate_limit, concurrency_limit)) := by
  unfold tokenBucketInit
  constructor
  · constructor
    · intro herr
      by_contra hcon
      push_neg at hcon
      rw [if_neg (by omega), if_neg (by omega)] at herr
      obtain ⟨msg, hmsg⟩ := herr
      exact Except.noConfusion hmsg
    · intro hlt
      rcases Classical.em (rate_limit = 0 ∨ rate_limit < 1) with h1 | h1
      · exact ⟨_, by rw [if_pos h1]⟩
      · have h2 : concurrency_limit = 0 ∨ concurrency_limit < 1 := by omega
        exact ⟨_, by rw [if_neg h1, if_pos h2]⟩
  · intro hrl hcl
    rw [if_neg (by omega), if_neg (by omega)]

/-- Witness for C8: both limits equal to 1 make construction succeed;
a zero rate limit makes it fail. -/
theorem claim8_witness :
    tokenBucketInit 1 1 = .ok (1, 1) ∧
    ((∃ msg, tokenBucketInit 0 5 = .error msg) ↔ ((0 : ℤ) < 1 ∨ (5 : ℤ) < 1)) :=
  ⟨(claim8_limiter_validation 1 1).2 (by norm_num) (by norm_num),
   (claim8_limiter_validation 0 5).1⟩

/-- C9: the method `_rest_call` absorbs every
`FetchMechanismFailed` raised by the fetch mechanism — it returns
Python `None` to its caller in that case — and no input whatsoever
makes `_rest_call` let a `FetchMechanismFailed` escape. -/
theorem claim9_rest_call_absorbs_mechanism_failure
    (message : String) (statusCode : Option Nat) (exc : Option ExcType) :
    rest_call (.raised (.fetchMechanismFailed message statusCode exc)) = .returned none ∧
    ∀ (res : FetchResult) (m2 : String) (s2 : Option Nat) (e2 : Option ExcType),
      rest_call res ≠ .raised (.fetchMechanismFailed m2 s2 e2) := by
  refine ⟨rfl, ?_⟩
  intro res m2 s2 e2
  cases res with
  | returned r => simp [rest_call]
  | returnedNone => simp [rest_call]
  | raised e =>
    cases e with
    | fetchMechanismFailed m s ex => simp [rest_call]
    | attributeError => simp [rest_call]
    | runtimeError => simp [rest_call]

lemma dropNanGo_short (initSize : Nat) (dict pending : PyDict)
    (h : dict.length ≠ initSize) :
    dropNanGo initSize dict pending = .error .runtimeError := by
  cases pending with
  | nil => simp [dropNanGo, h]
  | cons e rest =>
    obtain ⟨k, v⟩ := e
    simp [dropNanGo, h]

lemma filter_out_key_length_lt (dict : PyDict) (k : String)
    (hmem : (k, (none : Option PyVal)) ∈ dict) :
    (dict.filter fun p => p.1 ≠ k).length < dict.length := by
  induction dict with
  | nil => cases hmem
  | cons a t ih =>
    rcases List.mem_cons.1 hmem with h1 | h2
    · subst h1
      simp only [List.filter_cons]
      have hdk : (decide ((k, (none : Option PyVal)).1 ≠ k)) = false := by simp
      rw [hdk]
      simp only [List.length_cons]
      exact Nat.lt_succ_of_le (List.length_filter_le _ _)
    · simp only [List.filter_cons]
      cases hd : decide (a.1 ≠ k) with
      | true => simpa using Nat.succ_lt_succ (ih h2)
      | false => simp only [List.length_cons]; exact Nat.lt_succ_of_lt (ih h2)

lemma dropNanGo_of_none (initSize : Nat) :
    ∀ (pending dict : PyDict), dict.length = initSize →
      (∀ e ∈ pending, e ∈ dict) → (∃ e ∈ pending, e.2 = none) →
      dropNanGo initSize dict pending = .error .runtimeError := by
  intro pending
  induction pending with
  | nil =>
    intro dict _ _ hex
    obtain ⟨e, he, _⟩ := hex
    cases he
  | cons a rest ih =>
    intro dict hlen hsub hex
    obtain ⟨k, v⟩ := a
    cases v with
    | none =>
      have hmem : (k, (none : Option PyVal)) ∈ dict := hsub _ (List.mem_cons_self _ _)
      have hlt := filter_out_key_length_lt dict k hmem
      simp only [dropNanGo, if_pos hlen]
      exact dropNanGo_short initSize _ rest (by omega)
    | some pv =>
      simp only [dropNanGo, if_pos hlen]
      apply ih dict hlen (fun e he => hsub e (List.mem_cons_of_mem _ he))
      obtain ⟨e, he, henone⟩ := hex
      rcases List.mem_cons.1 he with h1 | hr
      · rw [h1] at henone
        simp at henone
      · exact ⟨e, hr, henone⟩

lemma dropNanGo_clean (initSize : Nat) :
    ∀ (pending dict : PyDict), dict.length = initSize →
      (∀ e ∈ pending, e.2 ≠ none) →
      dropNanGo initSize dict pending = .ok dict := by
  intro pending
  induction pending with
  | nil =>
    intro dict hlen _
    simp [dropNanGo, hlen]
  | cons a rest ih =>
    intro dict hlen hcl
    obtain ⟨k, v⟩ := a
    cases v with
    | none => exact absurd rfl (hcl (k, none) (List.mem_cons_self _ _))
    | some pv =>
      simp only [dropNanGo, if_pos hlen]
      exact ih dict hlen (fun e he => hcl e (List.mem_cons_of_mem _ he))

/-- Boolean test: true exactly when the dict has at least one entry whose
value is Python `None`. -/
def hasNoneVal (d : PyDict) : Bool := d.any fun p => p.2.isNone

/-- The test `hasNoneVal` lifted to an optional dict argument. -/
def optHasNoneVal : Option PyDict → Bool
  | none => false
  | some d => hasNoneVal d

lemma drop_nan_values_error (d : PyDict) (h : hasNoneVal d = true) :
    drop_nan_values d = .error .runtimeError := by
  apply dropNanGo_of_none d.length d d rfl (fun e he => he)
  obtain ⟨e, he, hc⟩ := List.any_eq_true.1 h
  exact ⟨e, he, Option.isNone_iff_eq_none.1 hc⟩

lemma drop_nan_values_ok (d : PyDict) (h : hasNoneVal d = false) :
    drop_nan_values d = .ok d := by
  apply dropNanGo_clean d.length d d rfl
  intro e he hne
  have hc : e.2.isNone = true := by rw [hne]; rfl
  have hany : d.any (fun p => p.2.isNone) = true := List.any_eq_true.2 ⟨e, he, hc⟩
  rw [hasNoneVal] at h
  rw [h] at hany
  cases hany

lemma processOpt_drop_eq_error (o : Option PyDict) (ho : optHasNoneVal o = true) :
    processOpt drop_nan_values o = .error .runtimeError := by
  cases o with
  | none => cases ho
  | some d =>
    show (drop_nan_values d).map some = _
    rw [drop_nan_values_error d ho]
    rfl

lemma processOpt_drop_eq_ok (o : Option PyDict) (ho : optHasNoneVal o = false) :
    processOpt drop_nan_values o = .ok o := by
  cases o with
  | none => rfl
  | some d =>
    show (drop_nan_values d).map some = _
    rw [drop_nan_values_ok d ho]
    rfl

lemma processOpt_dropconv_eq_error (o : Option PyDict) (ho : optHasNoneVal o = true) :
    processOpt (fun d => (drop_nan_values d).map convert_values_to_str) o
      = .error .runtimeError := by
  cases o with
  | none => cases ho
  | some d =>
    show (((drop_nan_values d).map convert_values_to_str).map some) = _
    rw [drop_nan_values_error d ho]
    rfl

lemma processOpt_dropconv_eq_ok (o : Option PyDict) (ho : optHasNoneVal o = false) :
    processOpt (fun d => (drop_nan_values d).map convert_values_to_str) o
      = .ok (o.map convert_values_to_str) := by
  cases o with
  | none => rfl
  | some d =>
    show (((drop_nan_values d).map convert_values_to_str).map some) = _
    rw [drop_nan_values_ok d ho]
    rfl

/-- C10: request construction over `data`, `headers` and
`params`: if any supplied dictionary contains at least one `None`-valued
entry, construction raises `RuntimeError` (because `drop_nan_values`
deletes keys from the dictionary while iterating over it) rather than
returning a request with those entries removed; if no supplied
dictionary contains a `None` value, construction succeeds with the
attempt counter at 1 and `drop_nan_values` leaves every such dictionary
unchanged. -/
theorem claim10_none_values_break_construction (data headers params : Option PyDict) :
    ((optHasNoneVal data || optHasNoneVal headers || optHasNoneVal params) = true →
      mkRestRequest data headers params = .error .runtimeError) ∧
    ((optHasNoneVal data || optHasNoneVal headers || optHasNoneVal params) = false →
      mkRestRequest data headers params
        = .ok ⟨1, data, headers.map convert_values_to_str,
            params.map convert_values_to_str⟩) ∧
    ∀ d : PyDict, hasNoneVal d = false → drop_nan_values d = .ok d := by
  refine ⟨?_, ?_, fun d hd => drop_nan_values_ok d hd⟩
  · intro h
    cases hD : optHasNoneVal data with
    | true => simp [mkRestRequest, processOpt_drop_eq_error data hD]
    | false =>
      cases hH : optHasNoneVal headers with
      | true =>
        simp [mkRestRequest, processOpt_drop_eq_ok data hD,
          processOpt_dropconv_eq_error headers hH]
      | false =>
        cases hP : optHasNoneVal params with
        | true =>
          simp [mkRestRequest, processOpt_drop_eq_ok data hD,
            processOpt_dropconv_eq_ok headers hH,
            processOpt_dropconv_eq_error params hP]
        | false =>
          rw [hD, hH, hP] at h
          cases h
  · intro h
    rw [Bool.or_eq_false_iff] at h
    obtain ⟨h12, hP⟩ := h
    rw [Bool.or_eq_false_iff] at h12
    obtain ⟨hD, hH⟩ := h12
    simp [mkRestRequest, processOpt_drop_eq_ok data hD,
      processOpt_dropconv_eq_ok headers hH, processOpt_dropconv_eq_ok params hP]

/-- Witness for C10: a one-entry dict holding `None` breaks
construction with `RuntimeError`; dicts with no `None` values pass
through unchanged. -/
theorem claim10_witness :
    mkRestRequest (some [("a", none)]) none none = .error .runtimeError ∧
    mkRestRequest (some [("a", some (.pyInt 1))]) none none
      = .ok ⟨1, some [("a", some (.pyInt 1))], none, none⟩ :=
  ⟨(claim10_none_values_break_construction (some [("a", none)]) none none).1 (by decide),
   (claim10_none_values_break_construction
      (some [("a", some (.pyInt 1))]) none none).2.1 (by decide)⟩

end D2E
